import Mathlib

/-!
Verification development for the resilient multimodal invocation layer of the
marker repository.  The definitions below are a shallow embedding of
`src/marker/services/openai.py` (the canonical service variant) and of the
divergent variant `src/marker/services/openai（出错）.py`.  Network effects are
modelled by a stream of per-attempt transport results, and `time.sleep`
durations are recorded in a trace.  `json.loads` is modelled by an executable
recursive-descent decoder covering the integer fragment of JSON (objects,
arrays, strings with simple escapes, integers, booleans, null), which is
faithful on every input used in this development; floating point numbers are
out of scope of the claims.
-/

/-- Result of one transport-level network attempt, i.e. of one evaluation of
`client.beta.chat.completions.parse(...)` in `OpenAIService.__call__`.
`ok content tokens` models a transport-level success whose message content is
the string `content` and whose reported usage is `tokens`; `okNone tokens`
models a transport-level success whose `message.content` is `None` (the SDK
types content as `Optional[str]`, e.g. for refusals) with reported usage
`tokens`; `timeout` and `rateLimit` model `openai.APITimeoutError` and
`openai.RateLimitError`; `fatal` models any other exception raised by the
transport call itself. -/
inductive NetResult where
  | ok (content : String) (tokens : Nat)
  | okNone (tokens : Nat)
  | timeout
  | rateLimit
  | fatal
deriving DecidableEq

/-- Exceptions that can escape `OpenAIService.__call__` in the divergent
variant: reading the unbound local `response_text` raises
`UnboundLocalError`. -/
inductive PyExc where
  | unboundLocal
deriving DecidableEq

/-- JSON values as produced by the model of `json.loads` (integer fragment). -/
inductive JsonVal where
  | null
  | bool (b : Bool)
  | num (n : Int)
  | str (s : String)
  | arr (elems : List JsonVal)
  | obj (members : List (String × JsonVal))

/-- How a Python call terminates: `ret v` is `return` of a JSON-shaped value,
`retNone` is falling off the end of the function (Python returns `None`), and
`raised e` is an uncaught exception propagating to the caller. -/
inductive CallResult where
  | ret (v : JsonVal)
  | retNone
  | raised (e : PyExc)

/-- Whitespace characters skipped by the JSON decoder (the JSON whitespace
set, matching Python json). -/
def jsonWs (c : Char) : Bool :=
  c = ' ' || c = '\t' || c = '\n' || c = '\r'

/-- Drop leading JSON whitespace. -/
def skipWs : List Char → List Char
  | [] => []
  | c :: cs => if jsonWs c then skipWs cs else c :: cs

/-- Translate a JSON string escape character to the character it denotes
(`\u` escapes are not modelled). -/
def escChar (c : Char) : Option Char :=
  if c = '"' then some '"'
  else if c = '\\' then some '\\'
  else if c = '/' then some '/'
  else if c = 'n' then some '\n'
  else if c = 't' then some '\t'
  else if c = 'r' then some '\r'
  else if c = 'b' then some (Char.ofNat 8)
  else if c = 'f' then some (Char.ofNat 12)
  else none

/-- Scan the body of a JSON string literal after the opening quote, returning
the decoded string and the remaining input. -/
def scanStr : Nat → List Char → Option (String × List Char)
  | 0, _ => none
  | _, [] => none
  | fuel + 1, c :: cs =>
    if c = '"' then some ("", cs)
    else if c = '\\' then
      match cs with
      | [] => none
      | e :: cs2 =>
        match escChar e with
        | none => none
        | some ec => (scanStr fuel cs2).map (fun p => (String.mk (ec :: p.1.data), p.2))
    else (scanStr fuel cs).map (fun p => (String.mk (c :: p.1.data), p.2))

/-- Scan a maximal run of decimal digits. -/
def scanDigits : List Char → List Char × List Char
  | [] => ([], [])
  | c :: cs =>
    if c.isDigit then
      let p := scanDigits cs
      (c :: p.1, p.2)
    else ([], c :: cs)

/-- Numeric value of a digit run. -/
def digitsVal (ds : List Char) : Nat :=
  ds.foldl (fun acc c => 10 * acc + (c.toNat - 48)) 0

/-- Parse a JSON integer (optional leading minus followed by digits). -/
def parseNum : List Char → Option (JsonVal × List Char)
  | '-' :: cs =>
    match scanDigits cs with
    | ([], _) => none
    | (ds, r) => some (JsonVal.num (-(Int.ofNat (digitsVal ds))), r)
  | cs =>
    match scanDigits cs with
    | ([], _) => none
    | (ds, r) => some (JsonVal.num (Int.ofNat (digitsVal ds)), r)

mutual

/-- Parse one JSON value, returning it and the remaining input. -/
def parseVal : Nat → List Char → Option (JsonVal × List Char)
  | 0, _ => none
  | fuel + 1, input =>
    match skipWs input with
    | [] => none
    | '\x7b' :: cs =>
      match skipWs cs with
      | '\x7d' :: r => some (JsonVal.obj [], r)
      | _ =>
        match parseMembers fuel cs with
        | none => none
        | some (ms, r) => some (JsonVal.obj ms, r)
    | '[' :: cs =>
      match skipWs cs with
      | ']' :: r => some (JsonVal.arr [], r)
      | _ =>
        match parseItems fuel cs with
        | none => none
        | some (vs, r) => some (JsonVal.arr vs, r)
    | '"' :: cs =>
      match scanStr (cs.length + 1) cs with
      | none => none
      | some (s, r) => some (JsonVal.str s, r)
    | 't' :: 'r' :: 'u' :: 'e' :: cs => some (JsonVal.bool true, cs)
    | 'f' :: 'a' :: 'l' :: 's' :: 'e' :: cs => some (JsonVal.bool false, cs)
    | 'n' :: 'u' :: 'l' :: 'l' :: cs => some (JsonVal.null, cs)
    | cs => parseNum cs

/-- Parse the members of a JSON object after the opening brace (at least one
member), up to and including the closing brace. -/
def parseMembers : Nat → List Char → Option (List (String × JsonVal) × List Char)
  | 0, _ => none
  | fuel + 1, cs =>
    match skipWs cs with
    | '"' :: cs1 =>
      match scanStr (cs1.length + 1) cs1 with
      | none => none
      | some (k, cs2) =>
        match skipWs cs2 with
        | ':' :: cs3 =>
          match parseVal fuel cs3 with
          | none => none
          | some (v, cs4) =>
            match skipWs cs4 with
            | ',' :: cs5 =>
              match parseMembers fuel cs5 with
              | none => none
              | some (ms, r) => some ((k, v) :: ms, r)
            | '\x7d' :: r => some ([(k, v)], r)
            | _ => none
        | _ => none
    | _ => none

/-- Parse the items of a JSON array after the opening bracket (at least one
item), up to and including the closing bracket. -/
def parseItems : Nat → List Char → Option (List JsonVal × List Char)
  | 0, _ => none
  | fuel + 1, cs =>
    match parseVal fuel cs with
    | none => none
    | some (v, cs1) =>
      match skipWs cs1 with
      | ',' :: cs2 =>
        match parseItems fuel cs2 with
        | none => none
        | some (vs, r) => some (v :: vs, r)
      | ']' :: r => some (v :: [], r)
      | _ => none

end

/-- Model of Python `json.loads`: decode one JSON value and require that only
whitespace remains; any leftover input is the `Extra data` error, any decode
failure is `json.JSONDecodeError`, both modelled as `none`. -/
def loads (s : String) : Option JsonVal :=
  match parseVal (2 * s.length + 2) s.data with
  | none => none
  | some (v, rest) => if skipWs rest = [] then some v else none

/-- Whitespace stripped by Python `str.strip()` (the ASCII part). -/
def pyWs (c : Char) : Bool :=
  c = ' ' || c = '\t' || c = '\n' || c = '\r' || c = '\x0b' || c = '\x0c'

/-- Model of Python `str.strip()`: drop leading and trailing whitespace. -/
def pyStrip (s : String) : String :=
  String.mk (((s.data.dropWhile pyWs).reverse.dropWhile pyWs).reverse)

/-- Model of Python `cleaned.startswith(("\x7b", "["))`: the first character
is an opening structural character. -/
def headIsOpen : List Char → Bool
  | c :: _ => c = '\x7b' || c = '['
  | [] => false

/-- Model of Python `cleaned.endswith(("\x7d", "]"))`: the last character is a
closing structural character. -/
def lastIsClose (cs : List Char) : Bool :=
  match cs.getLast? with
  | some c => c = '\x7d' || c = ']'
  | none => false

/-- Model of the inner parse block of `OpenAIService.__call__` in
`src/marker/services/openai.py` (lines 119-132): try `json.loads` on the raw
text; on `JSONDecodeError`, strip surrounding whitespace and, when the
stripped text starts with an opening structural character and ends with a
closing one, try `json.loads` again on the stripped text; otherwise (and when
that second parse also fails) the `JSONDecodeError` is re-raised, modelled as
`none`. -/
def parseStep (text : String) : Option JsonVal :=
  match loads text with
  | some v => some v
  | none =>
    let cleaned := pyStrip text
    if headIsOpen cleaned.data && lastIsClose cleaned.data then
      loads cleaned
    else none

/-- Model of the `if max_retries is None: max_retries = self.max_retries`
defaulting at the top of `__call__`: the effective retry limit is the caller
override when given, otherwise the configured default. -/
def effectiveRetries (override : Option Int) (dflt : Int) : Int :=
  override.getD dflt

/-- Trace of one call of the canonical `OpenAIService.__call__`
(`src/marker/services/openai.py`): the number of network attempts performed,
the sequence of `time.sleep` durations in order, and how the call
terminated. -/
structure OTrace where
  attempts : Nat
  delays : List Nat
  result : CallResult

/-- Model of the retry loop of `OpenAIService.__call__` in
`src/marker/services/openai.py` (lines 92-159).  `net k` is the transport
result of attempt `k` (0-based); `maxR` is the effective `max_retries`;
`tries` is the Python `tries` counter at loop entry and `fuel = maxR - tries`
so that `fuel = 0` is exactly the failing loop guard `tries < max_retries`,
after which the function returns the empty dict.  Branches, in source order:
a transport success with empty content raises `ValueError`, caught by the
bare `except Exception` handler (`tries += 1`, sleep 1 only while budget
remains); a transport success with `None` content takes the same path, since
`getattr(message, "content", "")` returns the present-but-`None` attribute
and `if not response_text` is true for `None` exactly as for the empty
string; a parse success returns the payload; a parse failure is caught by
the `except json.JSONDecodeError` handler (`tries += 1`, sleep 1); timeout or
rate limit is caught by the transient handler (`tries += 1`,
sleep `min(tries * 3, 10)`); any other transport exception is caught by the
bare `except Exception` handler. -/
def loopO (net : Nat → NetResult) (maxR : Nat) : Nat → Nat → OTrace
  | _tries, 0 => ⟨0, [], CallResult.ret (JsonVal.obj [])⟩
  | tries, fuel + 1 =>
    match net tries with
    | NetResult.ok content _tokens =>
      if content = "" then
        let d := if tries + 1 < maxR then [1] else []
        let r := loopO net maxR (tries + 1) fuel
        ⟨r.attempts + 1, d ++ r.delays, r.result⟩
      else
        match parseStep content with
        | some v => ⟨1, [], CallResult.ret v⟩
        | none =>
          let r := loopO net maxR (tries + 1) fuel
          ⟨r.attempts + 1, 1 :: r.delays, r.result⟩
    | NetResult.okNone _tokens =>
      let d := if tries + 1 < maxR then [1] else []
      let r := loopO net maxR (tries + 1) fuel
      ⟨r.attempts + 1, d ++ r.delays, r.result⟩
    | NetResult.timeout =>
      let r := loopO net maxR (tries + 1) fuel
      ⟨r.attempts + 1, min ((tries + 1) * 3) 10 :: r.delays, r.result⟩
    | NetResult.rateLimit =>
      let r := loopO net maxR (tries + 1) fuel
      ⟨r.attempts + 1, min ((tries + 1) * 3) 10 :: r.delays, r.result⟩
    | NetResult.fatal =>
      let d := if tries + 1 < maxR then [1] else []
      let r := loopO net maxR (tries + 1) fuel
      ⟨r.attempts + 1, d ++ r.delays, r.result⟩

/-- Model of one full call of `OpenAIService.__call__` in
`src/marker/services/openai.py`: resolve the effective `max_retries` (a Python
int, possibly zero or negative) and run the loop from `tries = 0`.  When the
effective limit is nonpositive its `toNat` is `0`, the loop body never runs,
and the call returns the empty dict, exactly like the failing initial guard
`tries < max_retries`. -/
def callO (net : Nat → NetResult) (override : Option Int) (dflt : Int) : OTrace :=
  let mr := (effectiveRetries override dflt).toNat
  loopO net mr 0 mr

/-- Transport results handled by the `except (APITimeoutError, RateLimitError)`
handler. -/
def isTransient : NetResult → Bool
  | NetResult.timeout => true
  | NetResult.rateLimit => true
  | _ => false

/-- An attempt whose transport or parse outcome makes the loop of
`src/marker/services/openai.py` continue instead of returning: a transport
failure, an empty content (the `ValueError` path), or content on which
`parseStep` fails. -/
def attemptFails : NetResult → Bool
  | NetResult.ok content _ => content = "" || (parseStep content).isNone
  | _ => true

/-- Modelled from the spec: the caller-owned `DocumentUnit` (the `Block` of
`marker.schema.blocks`, whose source is not in this repository) owns a mutable
metadata record with a token-usage counter and a request counter; the
invocation layer may only append to those two counters and never touches the
unit's other fields, which are modelled by an opaque association list. -/
structure DocumentUnit where
  llm_tokens_used : Nat
  llm_request_count : Nat
  otherMetadata : List (String × Nat)
deriving DecidableEq

/-- Modelled from the spec: `Block.update_metadata(llm_tokens_used=t,
llm_request_count=c)` (not under src/) adds the reported token usage and
request count to the unit's counters and changes nothing else. -/
def update_metadata (b : DocumentUnit) (tokens requests : Nat) : DocumentUnit :=
  { b with
    llm_tokens_used := b.llm_tokens_used + tokens,
    llm_request_count := b.llm_request_count + requests }

/-- Trace of one call of the divergent `OpenAIService.__call__`
(`src/marker/services/openai（出错）.py`): attempts, sleep durations, the final
state of the owning document unit, and how the call terminated. -/
structure ErrTrace where
  attempts : Nat
  delays : List Nat
  block : DocumentUnit
  result : CallResult

/-- Model of `OpenAIService.__call__` in
`src/marker/services/openai（出错）.py` (lines 122-170).  The `while` loop can
never reach a second iteration, because every branch of its body terminates
the call: a transport success records metadata via `update_metadata` and then
returns either the parsed payload or the hardcoded fallback envelope
`\x7b"content": response_text, "format": "markdown"\x7d`; a transport success
whose `message.content` is `None` also records metadata first, after which
`json.loads(None)` raises `TypeError`, which the inner
`except json.JSONDecodeError` does not catch, so the outer `except Exception`
handler hits `break` and the function returns `None` with the counters
already incremented; a timeout or rate
limit runs the transient handler (`tries = 1`, sleep `tries * 3 = 3`, no cap)
and then falls into the trailing `try` block inside the loop, whose every path
evaluates the local `response_text`, which is unbound on this path, so
`UnboundLocalError` escapes the call (the `except json.JSONDecodeError` there
does not catch it); any other exception hits `break`, and since no statement
follows the loop the function returns `None`.  A nonpositive effective
`max_retries` fails the loop guard immediately and the function also returns
`None`. -/
def callErr (net : Nat → NetResult) (override : Option Int) (dflt : Int)
    (_outputFormat : String) (b : DocumentUnit) : ErrTrace :=
  let mr := effectiveRetries override dflt
  if 0 < mr then
    match net 0 with
    | NetResult.ok content tokens =>
      let b2 := update_metadata b tokens 1
      match loads content with
      | some v => ⟨1, [], b2, CallResult.ret v⟩
      | none =>
        ⟨1, [], b2, CallResult.ret (JsonVal.obj
          [("content", JsonVal.str content), ("format", JsonVal.str "markdown")])⟩
    | NetResult.okNone tokens =>
      ⟨1, [], update_metadata b tokens 1, CallResult.retNone⟩
    | NetResult.timeout => ⟨1, [3], b, CallResult.raised PyExc.unboundLocal⟩
    | NetResult.rateLimit => ⟨1, [3], b, CallResult.raised PyExc.unboundLocal⟩
    | NetResult.fatal => ⟨1, [], b, CallResult.retNone⟩
  else ⟨0, [], b, CallResult.retNone⟩

/-- Opaque stand-in for a `PIL.Image.Image`; the invocation layer never
inspects pixels, it only serializes images through an encoding function. -/
structure PILImage where
  imageId : Nat
deriving DecidableEq

/-- An encoded image part as built by `prepare_images`: the literal part tag
`"image_url"` and the data URL carrying the base64 payload. -/
structure EncodedImage where
  tag : String
  url : String
deriving DecidableEq

/-- Argument shape of `prepare_images`: a lone image or a list of images,
mirroring the `Union[Image.Image, List[Image.Image]]` annotation. -/
inductive ImageInput where
  | single (img : PILImage)
  | multiple (imgs : List PILImage)

/-- One encoded image dict, as built inside the comprehension of
`prepare_images`: `\x7b"type": "image_url", "image_url": \x7b"url":
"data:image/webp;base64," + image_to_base64(img)\x7d\x7d`.  The WEBP/base64
serialization `image_to_base64` calls into PIL and the base64 library, both
external, and is passed in as a function. -/
def encodeImage (image_to_base64 : PILImage → String) (img : PILImage) : EncodedImage :=
  ⟨"image_url", "data:image/webp;base64," ++ image_to_base64 img⟩

/-- Model of `OpenAIService.prepare_images` (identical in both service
variants, `src/marker/services/openai.py` lines 35-51): a lone image is first
wrapped into a one-element list, then each image is mapped to its encoded
dict, in order. -/
def prepare_images (image_to_base64 : PILImage → String) (images : ImageInput) :
    List EncodedImage :=
  match images with
  | ImageInput.single img => [img].map (encodeImage image_to_base64)
  | ImageInput.multiple imgs => imgs.map (encodeImage image_to_base64)

/-- The prose-wrapped payload example from the spec. -/
def proseText : String := "Sure, here it is: \x7b\"a\":1\x7d — hope that helps"

/-- The free-form prose example from the spec, recoverable by no parse tier. -/
def tableText : String := "I could not find a table."

/-- A concrete document unit used to instantiate the frame theorems. -/
def sampleUnit : DocumentUnit := ⟨40, 2, [("page", 7)]⟩
/-- Under persistently transient transport failures the loop of the canonical
service runs its body once per remaining unit of budget, sleeping
`min(tries * 3, 10)` each time, and finally returns the empty dict. -/
theorem loopO_transient (net : Nat → NetResult) (maxR : Nat)
    (h : ∀ k, isTransient (net k) = true) :
    ∀ fuel tries, loopO net maxR tries fuel =
      ⟨fuel, (List.range fuel).map (fun i => min ((tries + i + 1) * 3) 10),
        CallResult.ret (JsonVal.obj [])⟩ := by
  intro fuel
  induction fuel with
  | zero => intro tries; simp [loopO]
  | succ fuel ih =>
    intro tries
    have ht := h tries
    cases hk : net tries with
    | ok c t => rw [hk] at ht; simp [isTransient] at ht
    | okNone t => rw [hk] at ht; simp [isTransient] at ht
    | fatal => rw [hk] at ht; simp [isTransient] at ht
    | timeout =>
      simp only [loopO, hk, ih (tries + 1), OTrace.mk.injEq]
      rw [List.range_succ_eq_map, List.map_cons, List.map_map]
      have harith : ∀ i : Nat,
          (tries + 1 + i + 1) * 3 ⊓ 10 = (tries + Nat.succ i + 1) * 3 ⊓ 10 := by
        intro i
        congr 1
        omega
      simp only [List.cons.injEq, Function.comp]
      refine And.intro trivial (And.intro (And.intro trivial ?_) trivial)
      exact List.map_congr_left (fun a _ => harith a)
    | rateLimit =>
      simp only [loopO, hk, ih (tries + 1), OTrace.mk.injEq]
      rw [List.range_succ_eq_map, List.map_cons, List.map_map]
      have harith : ∀ i : Nat,
          (tries + 1 + i + 1) * 3 ⊓ 10 = (tries + Nat.succ i + 1) * 3 ⊓ 10 := by
        intro i
        congr 1
        omega
      simp only [List.cons.injEq, Function.comp]
      refine And.intro trivial (And.intro (And.intro trivial ?_) trivial)
      exact List.map_congr_left (fun a _ => harith a)

/-- Under persistently fatal transport failures the loop of the canonical
service still consumes the whole budget, sleeping one unit after each failure
except the last, and finally returns the empty dict. -/
theorem loopO_fatal (net : Nat → NetResult) (maxR : Nat)
    (h : ∀ k, net k = NetResult.fatal) :
    ∀ fuel tries, tries + fuel = maxR →
      loopO net maxR tries fuel =
        ⟨fuel, List.replicate (fuel - 1) 1, CallResult.ret (JsonVal.obj [])⟩ := by
  intro fuel
  induction fuel with
  | zero => intro tries _; simp [loopO]
  | succ fuel ih =>
    intro tries htot
    simp only [loopO, h tries, ih (tries + 1) (by omega)]
    rcases Nat.eq_zero_or_pos fuel with hf | hf
    · subst hf
      have hcond : ¬ tries + 1 < maxR := by omega
      simp [hcond]
    · obtain ⟨f, rfl⟩ : ∃ f, fuel = f + 1 := ⟨fuel - 1, by omega⟩
      have hcond : tries + 1 < maxR := by omega
      simp [hcond, List.replicate_succ]

/-- The loop of the canonical service always returns a value: every branch of
its body either returns a payload or falls into one of the three handlers,
and the trailing code returns the empty dict. -/
theorem loopO_ret (net : Nat → NetResult) (maxR : Nat) :
    ∀ fuel tries, ∃ v, (loopO net maxR tries fuel).result = CallResult.ret v := by
  intro fuel
  induction fuel with
  | zero => exact fun _ => ⟨JsonVal.obj [], rfl⟩
  | succ fuel ih =>
    intro tries
    cases hk : net tries with
    | ok c t =>
      by_cases hc : c = ""
      · simpa [loopO, hk, hc] using ih (tries + 1)
      · cases hp : parseStep c with
        | some v => exact ⟨v, by simp [loopO, hk, hc, hp]⟩
        | none => simpa [loopO, hk, hc, hp] using ih (tries + 1)
    | okNone t => simpa [loopO, hk] using ih (tries + 1)
    | timeout => simpa [loopO, hk] using ih (tries + 1)
    | rateLimit => simpa [loopO, hk] using ih (tries + 1)
    | fatal => simpa [loopO, hk] using ih (tries + 1)

/-- When every attempt fails (bad transport, empty content, or unparseable
content) the loop of the canonical service returns the empty dict. -/
theorem loopO_fails (net : Nat → NetResult) (maxR : Nat)
    (h : ∀ k, attemptFails (net k) = true) :
    ∀ fuel tries,
      (loopO net maxR tries fuel).result = CallResult.ret (JsonVal.obj []) := by
  intro fuel
  induction fuel with
  | zero => intro tries; simp [loopO]
  | succ fuel ih =>
    intro tries
    have ht := h tries
    cases hk : net tries with
    | ok c t =>
      rw [hk] at ht
      simp only [attemptFails, Bool.or_eq_true, decide_eq_true_eq,
        Option.isNone_iff_eq_none] at ht
      by_cases hc : c = ""
      · simpa [loopO, hk, hc] using ih (tries + 1)
      · have hp : parseStep c = none := by tauto
        simpa [loopO, hk, hc, hp] using ih (tries + 1)
    | okNone t => simpa [loopO, hk] using ih (tries + 1)
    | timeout => simpa [loopO, hk] using ih (tries + 1)
    | rateLimit => simpa [loopO, hk] using ih (tries + 1)
    | fatal => simpa [loopO, hk] using ih (tries + 1)

/-- When every attempt yields nonempty content on which the parse step fails,
the loop of the canonical service consumes the whole budget with a one-unit
sleep per failure and returns the empty dict. -/
theorem loopO_parsefail (net : Nat → NetResult) (maxR : Nat)
    (h : ∀ k, ∃ c t, net k = NetResult.ok c t ∧ c ≠ "" ∧ parseStep c = none) :
    ∀ fuel tries, loopO net maxR tries fuel =
      ⟨fuel, List.replicate fuel 1, CallResult.ret (JsonVal.obj [])⟩ := by
  intro fuel
  induction fuel with
  | zero => intro tries; simp [loopO]
  | succ fuel ih =>
    intro tries
    obtain ⟨c, t, hk, hc, hp⟩ := h tries
    simp [loopO, hk, hc, hp, ih (tries + 1), List.replicate_succ]
/-- Claim C1 counterexample: with a persistent transient failure and an
effective retry limit of 1, `OpenAIService.__call__` performs exactly one
network attempt, not `max_retries + 1 = 2` as the claim states: the first
attempt already consumes retry budget. -/
theorem C1_counterexample :
    (callO (fun _ => NetResult.timeout) (some 1) 5).attempts = 1 ∧ (1 : Nat) ≠ 1 + 1 :=
  ⟨rfl, by decide⟩

/-- Claim C1 (amended): for every call in which all network attempts fail with
a Transient failure, `OpenAIService.__call__` performs exactly
`max(max_retries, 0)` network attempts — not `max_retries + 1` — where
`max_retries` is the override when given, otherwise the configured default. -/
theorem C1_theorem (net : Nat → NetResult) (override : Option Int) (dflt : Int)
    (h : ∀ k, isTransient (net k) = true) :
    (callO net override dflt).attempts = (effectiveRetries override dflt).toNat := by
  simp [callO, loopO_transient net _ h]

/-- Claim C1 witness: two transient attempts for an override of 2. -/
theorem C1_witness :
    (callO (fun _ => NetResult.rateLimit) (some 2) 7).attempts = 2 := by
  have h := C1_theorem (fun _ => NetResult.rateLimit) (some 2) 7 (fun _ => rfl)
  simpa [effectiveRetries] using h

/-- Claim C2 counterexample: a Fatal transport failure on attempt 1 does not
abort the call: with an effective retry limit of 2 and persistent fatal
failures the call performs 2 attempts, not exactly one as the claim states. -/
theorem C2_counterexample :
    (callO (fun _ => NetResult.fatal) (some 2) 0).attempts = 2 ∧ (2 : Nat) ≠ 1 :=
  ⟨rfl, by decide⟩

/-- Claim C2 (amended): a Fatal failure consumes one unit of retry budget like
any other failure and the loop continues; under persistent Fatal failures
`OpenAIService.__call__` performs exactly `max(max_retries, 0)` attempts,
sleeping one unit after each failure except the last, and yields the Empty
outcome (the empty dict).  Exactly one attempt happens only when the
effective limit is 1. -/
theorem C2_theorem (net : Nat → NetResult) (override : Option Int) (dflt : Int)
    (h : ∀ k, net k = NetResult.fatal) :
    callO net override dflt =
      ⟨(effectiveRetries override dflt).toNat,
        List.replicate ((effectiveRetries override dflt).toNat - 1) 1,
        CallResult.ret (JsonVal.obj [])⟩ := by
  simp only [callO]
  exact loopO_fatal net _ h _ 0 (by omega)

/-- Claim C2 witness: three fatal attempts for an override of 3, two one-unit
sleeps, Empty outcome. -/
theorem C2_witness :
    callO (fun _ => NetResult.fatal) (some 3) 0 =
      ⟨3, List.replicate 2 1, CallResult.ret (JsonVal.obj [])⟩ := by
  have h := C2_theorem (fun _ => NetResult.fatal) (some 3) 0 (fun _ => rfl)
  simpa [effectiveRetries] using h

/-- Claim C3 (confirmed for the canonical `src/marker/services/openai.py`):
every call returns a value — some payload `ret v` — never `None` and never an
uncaught exception; and whenever every attempt fails (bad transport, empty
content, or unparseable content) the returned value is exactly the Empty
outcome, the empty dict. -/
theorem C3_theorem (net : Nat → NetResult) (override : Option Int) (dflt : Int) :
    (∃ v, (callO net override dflt).result = CallResult.ret v) ∧
      ((∀ k, attemptFails (net k) = true) →
        (callO net override dflt).result = CallResult.ret (JsonVal.obj [])) := by
  constructor
  · simpa [callO] using loopO_ret net _ _ 0
  · intro h
    simpa [callO] using loopO_fails net _ h _ 0

/-- Claim C3 witness: a persistent fatal failure still returns a value, namely
the empty dict. -/
theorem C3_witness :
    (∃ v, (callO (fun _ => NetResult.fatal) (some 1) 0).result = CallResult.ret v) ∧
      (callO (fun _ => NetResult.fatal) (some 1) 0).result =
        CallResult.ret (JsonVal.obj []) := by
  have h := C3_theorem (fun _ => NetResult.fatal) (some 1) 0
  exact ⟨h.1, h.2 (fun _ => rfl)⟩

/-- Claim C4 (confirmed): under persistent Transient failures the backoff
delay after failed attempt `i` (1-based) is `min(i * 3, 10)`, so the delay
sequence is non-decreasing and never exceeds the cap 10. -/
theorem C4_theorem (net : Nat → NetResult) (override : Option Int) (dflt : Int)
    (h : ∀ k, isTransient (net k) = true) :
    (callO net override dflt).delays =
      (List.range (effectiveRetries override dflt).toNat).map
        (fun i => min ((i + 1) * 3) 10) ∧
    (callO net override dflt).delays.Pairwise (· ≤ ·) ∧
    (∀ x ∈ (callO net override dflt).delays, x ≤ 10) := by
  have hd : (callO net override dflt).delays =
      (List.range (effectiveRetries override dflt).toNat).map
        (fun i => min ((i + 1) * 3) 10) := by
    simp [callO, loopO_transient net _ h]
  refine ⟨hd, ?_, ?_⟩
  · rw [hd, List.pairwise_map]
    refine (List.pairwise_lt_range _).imp ?_
    intro a b hab
    exact min_le_min (Nat.mul_le_mul_right 3 (by omega)) le_rfl
  · rw [hd]
    intro x hx
    obtain ⟨i, _, rfl⟩ := List.mem_map.mp hx
    exact min_le_right _ _

/-- Claim C4 witness: four transient attempts give the delay sequence
3, 6, 9, 10, capped at 10. -/
theorem C4_witness :
    (callO (fun _ => NetResult.timeout) (some 4) 0).delays = [3, 6, 9, 10] ∧
      ∀ x ∈ (callO (fun _ => NetResult.timeout) (some 4) 0).delays, x ≤ 10 := by
  obtain ⟨h1, _h2, h3⟩ := C4_theorem (fun _ => NetResult.timeout) (some 4) 0 (fun _ => rfl)
  refine ⟨?_, h3⟩
  rw [h1]
  decide

/-- Claim C5 counterexample: on the raw text
`Sure, here it is: \x7b"a":1\x7d — hope that helps` the parse block of
`src/marker/services/openai.py` recovers nothing — it does not trim the prose
down to the structural payload, it only strips whitespace, so the claimed
result `\x7b a: 1 \x7d` is not returned and the `JSONDecodeError` is
re-raised. -/
theorem C5_counterexample : parseStep proseText = none := rfl

/-- Claim C5 (amended): the strict parse does decode the bare payload
`\x7b"a":1\x7d`, and the repair tier re-parses only the whitespace-stripped
text (accepted when it starts with an opening and ends with a closing
structural character); a payload wrapped in prose is never recovered, so a
call that receives the prose-wrapped example on every attempt treats each
attempt as a retryable parse failure, sleeps one unit each time, and returns
the Empty outcome. -/
theorem C5_theorem :
    loads "\x7b\"a\":1\x7d" = some (JsonVal.obj [("a", JsonVal.num 1)]) ∧
    parseStep " \x7b\"a\":1\x7d " = some (JsonVal.obj [("a", JsonVal.num 1)]) ∧
    callO (fun _ => NetResult.ok proseText 0) (some 2) 0 =
      ⟨2, [1, 1], CallResult.ret (JsonVal.obj [])⟩ :=
  ⟨rfl, rfl, rfl⟩
/-- Claim C6 counterexample: in the variant that has the fallback envelope
(`src/marker/services/openai（出错）.py`), the envelope's format tag is the
hardcoded literal `"markdown"`, not the requested format tag: requesting
`"json"` for the unparseable text `I could not find a table.` still yields
`format = "markdown"`.  There is also no fallback-mode flag anywhere: the
envelope is returned unconditionally on parse failure. -/
theorem C6_counterexample :
    (callErr (fun _ => NetResult.ok tableText 3) (some 1) 0 "json" sampleUnit).result =
      CallResult.ret (JsonVal.obj
        [("content", JsonVal.str tableText), ("format", JsonVal.str "markdown")]) ∧
    ("markdown" : String) ≠ "json" :=
  ⟨rfl, by decide⟩

/-- Claim C6 (amended): for every raw response text on which `json.loads`
fails, the divergent variant unconditionally (there is no fallback-mode flag)
returns the envelope with the raw text as content and the literal format tag
`"markdown"`, whatever format the caller requested. -/
theorem C6_theorem (content : String) (tokens : Nat) (fmt : String)
    (b : DocumentUnit) (override : Option Int) (dflt : Int)
    (hmr : 0 < effectiveRetries override dflt) (hp : loads content = none) :
    (callErr (fun _ => NetResult.ok content tokens) override dflt fmt b).result =
      CallResult.ret (JsonVal.obj
        [("content", JsonVal.str content), ("format", JsonVal.str "markdown")]) := by
  simp [callErr, hmr, hp]

/-- Claim C6 witness: the spec's own example, with format `"markdown"`
requested, does yield the claimed envelope. -/
theorem C6_witness :
    (callErr (fun _ => NetResult.ok tableText 3) (some 2) 0 "markdown" sampleUnit).result =
      CallResult.ret (JsonVal.obj
        [("content", JsonVal.str tableText), ("format", JsonVal.str "markdown")]) :=
  C6_theorem tableText 3 "markdown" sampleUnit (some 2) 0 (by decide) rfl

/-- Claim C7 counterexample: in `src/marker/services/openai.py` an
unrecoverable response text raises no typed parse error at all — there is no
`ResponseParseError` and no fallback-mode flag; the `json.JSONDecodeError` is
caught by the loop's own handler, the attempt is retried, and after the
budget is exhausted the call returns the empty dict. -/
theorem C7_counterexample :
    callO (fun _ => NetResult.ok tableText 0) (some 1) 0 =
      ⟨1, [1], CallResult.ret (JsonVal.obj [])⟩ := rfl

/-- Claim C7 (amended): whenever every attempt returns nonempty text on which
the parse block fails, no error surfaces to the caller: the decode failure is
caught inside the loop, consumes one retry unit and a one-unit sleep per
attempt, and the call finally returns the Empty outcome. -/
theorem C7_theorem (net : Nat → NetResult) (override : Option Int) (dflt : Int)
    (h : ∀ k, ∃ c t, net k = NetResult.ok c t ∧ c ≠ "" ∧ parseStep c = none) :
    callO net override dflt =
      ⟨(effectiveRetries override dflt).toNat,
        List.replicate (effectiveRetries override dflt).toNat 1,
        CallResult.ret (JsonVal.obj [])⟩ := by
  simpa [callO] using loopO_parsefail net _ h _ 0

/-- Claim C7 witness: two attempts with the unparseable example text, two
one-unit sleeps, Empty outcome, no surfaced error. -/
theorem C7_witness :
    callO (fun _ => NetResult.ok tableText 5) (some 2) 0 =
      ⟨2, List.replicate 2 1, CallResult.ret (JsonVal.obj [])⟩ := by
  have h := C7_theorem (fun _ => NetResult.ok tableText 5) (some 2) 0
    (fun _ => ⟨tableText, 5, rfl, by decide, rfl⟩)
  simpa [effectiveRetries] using h

/-- Claim C8 counterexample: in the variant that records metadata
(`src/marker/services/openai（出错）.py`), a transport-level success whose
`message.content` is `None` increments the document unit's counters via
`update_metadata` and then ends in an Empty (no-payload, `None`) exit, because
`json.loads(None)` raises `TypeError`, uncaught by
`except json.JSONDecodeError`, so `except Exception` breaks out of the loop —
contradicting the claim that on Empty outcomes neither counter changes. -/
theorem C8_counterexample :
    (callErr (fun _ => NetResult.okNone 9) (some 1) 0 "markdown" sampleUnit).result =
      CallResult.retNone ∧
    (callErr (fun _ => NetResult.okNone 9) (some 1) 0 "markdown"
      sampleUnit).block ≠ sampleUnit :=
  ⟨rfl, by decide⟩

/-- Claim C8 (amended, for the variant that records metadata): the counters
are incremented by exactly one request and the response's reported usage on
every transport-level success, not only on Success outcomes.  Concretely:
whenever a call of the divergent variant ends in a returned payload, the
transport succeeded with string content and the owning document unit's
request counter was incremented by exactly one and its token counter by the
reported usage, with no other field changed; whenever the call yields no
payload (the `None` result) and the transport did not succeed with `None`
content, the unit is unchanged (the fatal and exhausted-budget exits); but a
transport success with `None` content both increments the counters and ends
in the no-payload exit. -/
theorem C8_theorem (net : Nat → NetResult) (override : Option Int) (dflt : Int)
    (fmt : String) (b : DocumentUnit) :
    (∀ v, (callErr net override dflt fmt b).result = CallResult.ret v →
      ∃ c t, net 0 = NetResult.ok c t ∧
        (callErr net override dflt fmt b).block =
          { b with
            llm_tokens_used := b.llm_tokens_used + t,
            llm_request_count := b.llm_request_count + 1 }) ∧
    ((callErr net override dflt fmt b).result = CallResult.retNone →
      (∀ t, net 0 ≠ NetResult.okNone t) →
      (callErr net override dflt fmt b).block = b) ∧
    (∀ t, net 0 = NetResult.okNone t → 0 < effectiveRetries override dflt →
      (callErr net override dflt fmt b).result = CallResult.retNone ∧
        (callErr net override dflt fmt b).block =
          { b with
            llm_tokens_used := b.llm_tokens_used + t,
            llm_request_count := b.llm_request_count + 1 }) := by
  by_cases hmr : 0 < effectiveRetries override dflt
  · cases hk : net 0 with
    | ok c t =>
      refine ⟨?_, ?_, ?_⟩
      · intro w hw
        cases hl : loads c with
        | some v => exact ⟨c, t, rfl, by simp [callErr, hmr, hk, hl, update_metadata]⟩
        | none => exact ⟨c, t, rfl, by simp [callErr, hmr, hk, hl, update_metadata]⟩
      · intro hw _
        cases hl : loads c with
        | some v => simp [callErr, hmr, hk, hl] at hw
        | none => simp [callErr, hmr, hk, hl] at hw
      · intro t2 ht
        simp at ht
    | okNone t =>
      refine ⟨?_, ?_, ?_⟩
      · intro w hw
        simp [callErr, hmr, hk] at hw
      · intro _ hne
        exact absurd rfl (hne t)
      · intro t2 ht _
        injection ht with h
        subst h
        exact ⟨by simp [callErr, hmr, hk], by simp [callErr, hmr, hk, update_metadata]⟩
    | timeout =>
      refine ⟨?_, ?_, ?_⟩
      · intro w hw
        simp [callErr, hmr, hk] at hw
      · intro hw _
        simp [callErr, hmr, hk] at hw
      · intro t2 ht
        simp at ht
    | rateLimit =>
      refine ⟨?_, ?_, ?_⟩
      · intro w hw
        simp [callErr, hmr, hk] at hw
      · intro hw _
        simp [callErr, hmr, hk] at hw
      · intro t2 ht
        simp at ht
    | fatal =>
      refine ⟨?_, ?_, ?_⟩
      · intro w hw
        simp [callErr, hmr, hk] at hw
      · intro _ _
        simp [callErr, hmr, hk]
      · intro t2 ht
        simp at ht
  · refine ⟨?_, ?_, ?_⟩
    · intro w hw
      simp [callErr, hmr] at hw
    · intro _ _
      simp [callErr, hmr]
    · intro t2 _ hp
      exact absurd hp hmr

/-- Claim C8 witness: a successful attempt with string content `\x7b\x7d`
reporting 7 tokens bumps the sample unit's token counter by 7 and its request
counter by 1, leaving its other metadata untouched. -/
theorem C8_witness :
    (callErr (fun _ => NetResult.ok "\x7b\x7d" 7) (some 1) 0 "markdown" sampleUnit).block =
      { sampleUnit with
        llm_tokens_used := sampleUnit.llm_tokens_used + 7,
        llm_request_count := sampleUnit.llm_request_count + 1 } := by
  obtain ⟨h1, _h2, _h3⟩ :=
    C8_theorem (fun _ => NetResult.ok "\x7b\x7d" 7) (some 1) 0 "markdown" sampleUnit
  obtain ⟨c, t, hk, hb⟩ := h1 (JsonVal.obj []) rfl
  injection hk with hc ht
  subst hc
  subst ht
  exact hb

/-- Claim C9 (confirmed): `prepare_images` returns one encoded image per
input image, in input order (position `i` of the output is the encoding of
position `i` of the input), and a lone image is normalized to a one-element
output sequence. -/
theorem C9_theorem (image_to_base64 : PILImage → String) (imgs : List PILImage)
    (img : PILImage) (i : Nat) :
    (prepare_images image_to_base64 (ImageInput.multiple imgs)).length = imgs.length ∧
    (prepare_images image_to_base64 (ImageInput.multiple imgs))[i]? =
      (imgs[i]?).map (encodeImage image_to_base64) ∧
    prepare_images image_to_base64 (ImageInput.single img) =
      [encodeImage image_to_base64 img] := by
  refine ⟨?_, ?_, rfl⟩
  · simp [prepare_images]
  · simp [prepare_images]

/-- Claim C10 (confirmed): when the effective `max_retries` is zero or
negative, the loop guard `tries < max_retries` fails before the first
attempt, so `OpenAIService.__call__` performs zero network attempts, sleeps
never, and immediately returns the empty dict. -/
theorem C10_theorem (net : Nat → NetResult) (override : Option Int) (dflt : Int)
    (h : effectiveRetries override dflt ≤ 0) :
    callO net override dflt = ⟨0, [], CallResult.ret (JsonVal.obj [])⟩ := by
  have h0 : (effectiveRetries override dflt).toNat = 0 := Int.toNat_of_nonpos h
  simp [callO, h0, loopO]

/-- Claim C10 witness: an override of -2 produces zero attempts and the empty
dict. -/
theorem C10_witness :
    callO (fun _ => NetResult.timeout) (some (-2)) 5 =
      ⟨0, [], CallResult.ret (JsonVal.obj [])⟩ :=
  C10_theorem _ _ _ (by decide)
